import Mathlib

/-!
Verification development for the batch submission-grading pipeline and the
worksheet storage manager of the EduAdapt MCP server.

The grading service (src/grading/gradingService.ts) is embedded as pure Lean
functions parameterised over an environment of oracles standing for the
external collaborators (the worksheet storage lookups, the three OCR entry
points of the Mistral client, and the structured-generation scoring call).
JavaScript numbers are modelled as rationals, fallible asynchronous calls as
values in Except String, and a thrown Error as the error message string.

The worksheet storage manager (src/classroom/storage/worksheetStorageManager.ts)
keeps two JavaScript-object maps (worksheets keyed by worksheetPdfUrl, and
assignmentMapping keyed by assignmentId); both are embedded as association
lists with last-write-wins update.
-/

namespace EduAdapt

/-- One entry of sectionScores, both in the structured-generation schema
(GradingResultSchema) and in the final GradingResult. -/
structure SectionScore where
  sectionName : String
  pointsEarned : ℚ
  pointsPossible : ℚ
  feedback : String
  deriving Repr, DecidableEq

/-- The learningRecommendations object of GradingResultSchema / GradingResult. -/
structure LearningRecommendations where
  needsScaffolding : Bool
  scaffoldingAreas : List String
  readyForAcceleration : Bool
  accelerationAreas : List String
  generalRecommendation : String
  deriving Repr, DecidableEq

/-- The structured output the language model is asked to produce
(GradingResultSchema in src/grading/gradingService.ts, lines 6-24). -/
structure GradingLLMResult where
  overallScore : ℚ
  totalPossiblePoints : ℚ
  percentageScore : ℚ
  sectionScores : List SectionScore
  overallFeedback : String
  learningRecommendations : LearningRecommendations
  deriving Repr, DecidableEq

/-- StudentSubmission (src/grading/gradingService.ts, lines 26-31). -/
structure StudentSubmission where
  assignmentId : String
  userName : String
  userId : String
  pdfUrl : String
  deriving Repr, DecidableEq

/-- GradingResult (src/grading/gradingService.ts, lines 33-56). -/
structure GradingResult where
  userName : String
  userId : String
  assignmentId : String
  submittedPdfUrl : String
  gradedAt : String
  overallScore : ℚ
  totalPossiblePoints : ℚ
  percentageScore : ℚ
  sectionScores : List SectionScore
  overallFeedback : String
  learningRecommendations : LearningRecommendations
  deriving Repr, DecidableEq

/-- One entry of the stored gradingBreakdown array.  The source field is
called section, which is a Lean keyword, so it is named sectionTitle here. -/
structure BreakdownItem where
  sectionTitle : String
  points : ℚ
  deriving Repr, DecidableEq

/-- The value returned by WorksheetStorageManager.getGradingInfo: an object
with possibly-undefined totalPoints and gradingBreakdown fields. -/
structure GradingInfo where
  totalPoints : Option ℚ
  gradingBreakdown : Option (List BreakdownItem)
  deriving Repr, DecidableEq

/-- Result of one OCR call: ocrResult.content may be absent (undefined). -/
structure OcrResult where
  content : Option String
  deriving Repr, DecidableEq

/-- The environment of external collaborators of GradingService.
getAnswerKeyHtml and getGradingInfo are the storage lookups awaited at the
top of gradeStudentSubmission; processOCRFromFile / processOCRFromBase64 /
processOCR are the three OCR entry points of the Mistral client; scorer is
getLangchainMistralClient().generateWithStructuredOutput applied to the
grading prompt; extractAnswers abstracts the regex-based HTML stripping of
extractAnswersFromHtml (its output is only spliced into the prompt string);
now is the value of new Date().toISOString(). -/
structure Env where
  getAnswerKeyHtml : String → Option String
  getGradingInfo : String → Option GradingInfo
  processOCRFromFile : String → Except String OcrResult
  processOCRFromBase64 : String → Except String OcrResult
  processOCR : String → Except String OcrResult
  scorer : String → Except String GradingLLMResult
  extractAnswers : String → String
  now : String

/-- Renders a possibly-undefined number the way a JavaScript template
literal does. -/
def numToString : Option ℚ → String
  | some q => toString q
  | none => "undefined"

/-- buildGradingPrompt (src/grading/gradingService.ts, lines 207-240).
The answer key is passed through extractAnswers, mirroring the call to
this.extractAnswersFromHtml in the template literal. -/
def buildGradingPrompt (extractAnswers : String → String) (studentWork answerKeyHtml : String)
    (gradingInfo : GradingInfo) (studentName : String) : String :=
  let breakdownText :=
    match gradingInfo.gradingBreakdown with
    | some bs =>
        String.intercalate ("\n") (bs.map (fun s => s.sectionTitle ++ ": " ++ toString s.points ++ " points"))
    | none => "Total: " ++ numToString gradingInfo.totalPoints ++ " points"
  "Grade " ++ studentName ++ "\x27s worksheet submission.\n\n" ++
  "ANSWER KEY (HTML format):\n" ++ extractAnswers answerKeyHtml ++ "\n\n" ++
  "GRADING BREAKDOWN:\n" ++
  "Total Points: " ++ numToString gradingInfo.totalPoints ++ "\n" ++
  breakdownText ++ "\n\n" ++
  "STUDENT\x27S SUBMITTED WORK (OCR extracted):\n" ++ studentWork ++ "\n\n" ++
  "TASK:\n" ++
  "1. Compare each answer in the student\x27s work to the answer key\n" ++
  "2. Award points based on correctness and partial credit where appropriate\n" ++
  "3. Calculate section scores based on the grading breakdown\n" ++
  "4. Provide brief, constructive feedback for each section\n" ++
  "5. Analyze overall performance patterns\n" ++
  "6. Identify areas where the student needs additional support (scaffolding)\n" ++
  "7. Identify areas where the student could handle more advanced material (acceleration)\n" ++
  "8. Provide an overall recommendation for next steps\n\n" ++
  "Return a structured grading result with scores, feedback, and learning recommendations."

/-- The fallback text substituted when OCR succeeds but yields no usable
content (src/grading/gradingService.ts, line 123). -/
def emptyOcrFallback : String :=
  "Unable to extract text from PDF. The document may be an image-only PDF or have formatting issues."

/-- The fallback text substituted when the OCR call throws
(src/grading/gradingService.ts, line 129); e is the error message. -/
def ocrErrorFallback (e : String) : String :=
  "OCR processing failed: " ++ e ++ ". Unable to extract submission content."

/-- The URL-shape dispatch of step 2 of gradeStudentSubmission
(src/grading/gradingService.ts, lines 84-110).  A file:// URL goes to
file-based OCR with the prefix stripped, a base64 data URL goes to base64
OCR with the data-URL prefix stripped, and every other shape (http, https,
S3 or unknown) goes to processOCR on the URL itself — the S3 and non-S3
http branches of the source both call processOCR(pdfUrl). -/
def ocrDispatch (env : Env) (pdfUrl : String) : Except String OcrResult :=
  if pdfUrl.startsWith ("file://") then
    env.processOCRFromFile (pdfUrl.drop 7)
  else if pdfUrl.startsWith ("data:application/pdf;base64,") then
    env.processOCRFromBase64 (pdfUrl.drop 28)
  else if pdfUrl.startsWith ("http://") || pdfUrl.startsWith ("https://") then
    env.processOCR pdfUrl
  else
    env.processOCR pdfUrl

/-- Step 2 of gradeStudentSubmission (src/grading/gradingService.ts,
lines 78-130): resolve the student work content, substituting the empty
fallback when OCR returns no/blank content (ocrResult.content || "" followed
by the trim-empty check) and the error fallback when the OCR call throws. -/
def resolveStudentWork (env : Env) (pdfUrl : String) : String :=
  match ocrDispatch env pdfUrl with
  | Except.ok res =>
      let c := res.content.getD ("")
      if c.trim = "" then emptyOcrFallback else c
  | Except.error e => ocrErrorFallback e

/-- Step 4 of gradeStudentSubmission (src/grading/gradingService.ts,
lines 153-165): the returned GradingResult copies every numeric and textual
field of the structured-generation result verbatim. -/
def mkSuccessResult (sub : StudentSubmission) (now : String) (g : GradingLLMResult) : GradingResult :=
  { userName := sub.userName
    userId := sub.userId
    assignmentId := sub.assignmentId
    submittedPdfUrl := sub.pdfUrl
    gradedAt := now
    overallScore := g.overallScore
    totalPossiblePoints := g.totalPossiblePoints
    percentageScore := g.percentageScore
    sectionScores := g.sectionScores
    overallFeedback := g.overallFeedback
    learningRecommendations := g.learningRecommendations }

/-- gradeStudentSubmission (src/grading/gradingService.ts, lines 61-170).
The two storage lookups happen unconditionally before the answer-key and
grading-info checks; !gradingInfo.totalPoints is JavaScript truthiness, so
an absent totalPoints and totalPoints == 0 both fail the check. -/
def gradeStudentSubmission (env : Env) (sub : StudentSubmission) : Except String GradingResult :=
  let answerKeyOpt := env.getAnswerKeyHtml sub.assignmentId
  let gradingInfoOpt := env.getGradingInfo sub.assignmentId
  match answerKeyOpt with
  | none => Except.error ("No answer key found for assignment " ++ sub.assignmentId)
  | some answerKeyHtml =>
    match gradingInfoOpt with
    | none => Except.error ("No grading information found for assignment " ++ sub.assignmentId)
    | some gradingInfo =>
      match gradingInfo.totalPoints with
      | none => Except.error ("No grading information found for assignment " ++ sub.assignmentId)
      | some tp =>
        if tp = 0 then
          Except.error ("No grading information found for assignment " ++ sub.assignmentId)
        else
          let studentWorkContent := resolveStudentWork env sub.pdfUrl
          let gradingPrompt :=
            buildGradingPrompt env.extractAnswers studentWorkContent answerKeyHtml gradingInfo sub.userName
          match env.scorer gradingPrompt with
          | Except.ok g => Except.ok (mkSuccessResult sub env.now g)
          | Except.error e => Except.error ("Failed to grade submission: " ++ e)

/-- The failure GradingResult pushed by gradeMultipleSubmissions when
grading one submission throws (src/grading/gradingService.ts, lines 268-286). -/
def failedGradingResult (sub : StudentSubmission) (now : String) : GradingResult :=
  { userName := sub.userName
    userId := sub.userId
    assignmentId := sub.assignmentId
    submittedPdfUrl := sub.pdfUrl
    gradedAt := now
    overallScore := 0
    totalPossiblePoints := 0
    percentageScore := 0
    sectionScores := []
    overallFeedback := "Grading failed due to technical error. Please resubmit or contact your teacher."
    learningRecommendations :=
      { needsScaffolding := false
        scaffoldingAreas := []
        readyForAcceleration := false
        accelerationAreas := []
        generalRecommendation := "Unable to provide recommendations due to grading error." } }

/-- The outcome one loop iteration of gradeMultipleSubmissions appends for
a submission: the grading result on success, the failure envelope when
gradeStudentSubmission throws. -/
def batchOutcome (env : Env) (sub : StudentSubmission) : GradingResult :=
  match gradeStudentSubmission env sub with
  | Except.ok r => r
  | Except.error _ => failedGradingResult sub env.now

/-- gradeMultipleSubmissions (src/grading/gradingService.ts, lines 256-291):
a sequential for-loop over the submissions, each iteration pushing exactly
one result (success or failure envelope). -/
def gradeMultipleSubmissions (env : Env) (subs : List StudentSubmission) : List GradingResult :=
  subs.map (batchOutcome env)

/-- Instrumented variant of gradeMultipleSubmissions that also counts how
many rubric resolutions are performed.  A rubric resolution is the pair of
storage calls getAnswerKeyHtml / getGradingInfo at the top of
gradeStudentSubmission (lines 65-66 of the source), which every call of
gradeStudentSubmission executes unconditionally before any check; each loop
iteration of gradeMultipleSubmissions therefore performs exactly one
resolution, which the accumulator records. -/
def gradeMultipleSubmissionsCounting (env : Env) (subs : List StudentSubmission) :
    List GradingResult × Nat :=
  subs.foldl (fun acc sub => (acc.1 ++ [batchOutcome env sub], acc.2 + 1)) ([], 0)

/-! ### The google-classroom-grade-all-submissions tool handler

Embedding of the batch part of the tool handler (the per-submission promises
and the aggregation over their results). -/

/-- One gradable submission collected by the handler before dispatch
(assignmentId, userName, userId, driveFileId, driveFileName, submissionId,
state). -/
structure GradableSubmission where
  assignmentId : String
  userName : String
  userId : String
  driveFileId : String
  driveFileName : String
  submissionId : String
  state : String
  deriving Repr, DecidableEq

/-- External collaborators of one grading promise of the handler: download
stands for the whole primary path of obtaining a pdfUrl for the submission
(Drive metadata + media download, saving the file, and the S3 upload with
its internal fallback to a file:// URL), and altDownload for
classroomService.client.downloadFile returning a local path.  Both yield an
error message when the corresponding code throws. -/
structure HandlerEnv where
  genv : Env
  download : GradableSubmission → Except String String
  altDownload : GradableSubmission → Except String String

/-- The StudentSubmission a handler promise passes to
gradingService.gradeStudentSubmission once it has a pdfUrl. -/
def toStudentSubmission (sub : GradableSubmission) (pdfUrl : String) : StudentSubmission :=
  { assignmentId := sub.assignmentId
    userName := sub.userName
    userId := sub.userId
    pdfUrl := pdfUrl }

/-- The body of one grading promise of the handler up to its outermost
catch: the primary download-and-grade attempt; if anything in it throws,
the alternative download is tried and the submission graded from the local
file; if that also throws, the promise fails with the first download
error's message. -/
def handlerGradeOne (henv : HandlerEnv) (sub : GradableSubmission) : Except String GradingResult :=
  match
    (match henv.download sub with
     | Except.ok pdfUrl => gradeStudentSubmission henv.genv (toStudentSubmission sub pdfUrl)
     | Except.error e => Except.error e) with
  | Except.ok r => Except.ok r
  | Except.error dmsg =>
    match
      (match henv.altDownload sub with
       | Except.ok downloadPath =>
           gradeStudentSubmission henv.genv (toStudentSubmission sub ("file://" ++ downloadPath))
       | Except.error e => Except.error e) with
    | Except.ok r => Except.ok r
    | Except.error _ => Except.error ("Could not download PDF: " ++ dmsg)

/-- One element of the results array the handler aggregates over: a
GradingResult, plus the error marker the failure branch attaches
(error: true); successful results carry no error property, modelled as
error = false. -/
structure HandlerOutcome where
  result : GradingResult
  error : Bool
  deriving Repr, DecidableEq

/-- The failure object returned by the outermost catch of one grading
promise (error: true, overallFeedback prefixed with the thrown message). -/
def handlerFailedOutcome (sub : GradableSubmission) (msg now : String) : HandlerOutcome :=
  { result :=
      { userName := sub.userName
        userId := sub.userId
        assignmentId := sub.assignmentId
        submittedPdfUrl := "Drive file: " ++ sub.driveFileId
        gradedAt := now
        overallScore := 0
        totalPossiblePoints := 0
        percentageScore := 0
        sectionScores := []
        overallFeedback := "Grading failed: " ++ msg
        learningRecommendations :=
          { needsScaffolding := false
            scaffoldingAreas := []
            readyForAcceleration := false
            accelerationAreas := []
            generalRecommendation := "Unable to grade submission" } }
    error := true }

/-- The outcome one grading promise settles with. -/
def handlerOutcome (henv : HandlerEnv) (sub : GradableSubmission) : HandlerOutcome :=
  match handlerGradeOne henv sub with
  | Except.ok r => { result := r, error := false }
  | Except.error msg => handlerFailedOutcome sub msg henv.genv.now

/-- The results array awaited by Promise.all over the per-submission
grading promises: one outcome per gradable submission, in input order. -/
def gradeAllSubmissionsResults (henv : HandlerEnv) (subs : List GradableSubmission) :
    List HandlerOutcome :=
  subs.map (handlerOutcome henv)

/-- successful = results.filter(r => !r.error). -/
def successfulOf (results : List HandlerOutcome) : List HandlerOutcome :=
  results.filter (fun r => !r.error)

/-- failed = results.filter(r => r.error). -/
def failedOf (results : List HandlerOutcome) : List HandlerOutcome :=
  results.filter (fun r => r.error)

/-- avgScore = successful.length > 0 ? successful.reduce((sum, r) =>
sum + r.percentageScore, 0) / successful.length : 0. -/
def avgScoreOf (results : List HandlerOutcome) : ℚ :=
  let s := successfulOf results
  if 0 < s.length then
    (s.foldl (fun acc r => acc + r.result.percentageScore) 0) / (s.length : ℚ)
  else 0

/-- needsSupport = successful.filter(r => r.learningRecommendations.needsScaffolding). -/
def needsSupportOf (results : List HandlerOutcome) : List HandlerOutcome :=
  (successfulOf results).filter (fun r => r.result.learningRecommendations.needsScaffolding)

/-- readyForMore = successful.filter(r => r.learningRecommendations.readyForAcceleration). -/
def readyForMoreOf (results : List HandlerOutcome) : List HandlerOutcome :=
  (successfulOf results).filter (fun r => r.result.learningRecommendations.readyForAcceleration)

/-! ### Worksheet storage manager

Embedding of src/classroom/storage/worksheetStorageManager.ts.  The two
JavaScript object maps are association lists with last-write-wins update;
the durable file round-trip (ensureInitialized / save) is the identity on
the in-memory data and is omitted. -/

/-- WorksheetRecord (src/classroom/storage/worksheetStorageManager.ts,
lines 4-18). -/
structure WorksheetRecord where
  worksheetPdfUrl : String
  answerKeyPdfUrl : String
  title : String
  subject : Option String
  grade : Option String
  summary : Option String
  totalPoints : Option ℚ
  gradingBreakdown : Option (List BreakdownItem)
  createdAt : String
  assignmentId : Option String
  courseId : Option String
  courseName : Option String
  deriving Repr, DecidableEq

/-- Lookup in a JavaScript object map. -/
def getEntry : List (String × α) → String → Option α
  | [], _ => none
  | p :: rest, k => if p.1 = k then some p.2 else getEntry rest k

/-- Key assignment in a JavaScript object map (last-write-wins). -/
def setEntry (m : List (String × α)) (k : String) (v : α) : List (String × α) :=
  m.filter (fun p => !(p.1 == k)) ++ [(k, v)]

/-- Key deletion in a JavaScript object map. -/
def delEntry (m : List (String × α)) (k : String) : List (String × α) :=
  m.filter (fun p => !(p.1 == k))

/-- StorageData (src/classroom/storage/worksheetStorageManager.ts,
lines 20-23): worksheets keyed by worksheetPdfUrl, assignmentMapping from
assignmentId to worksheetPdfUrl. -/
structure StorageData where
  worksheets : List (String × WorksheetRecord)
  assignmentMapping : List (String × String)
  deriving Repr, DecidableEq

/-- The empty store. -/
def emptyStorage : StorageData :=
  { worksheets := [], assignmentMapping := [] }

/-- The optional metadata argument of addWorksheet. -/
structure WorksheetMetadata where
  subject : Option String
  grade : Option String
  summary : Option String
  totalPoints : Option ℚ
  gradingBreakdown : Option (List BreakdownItem)
  deriving Repr, DecidableEq

/-- addWorksheet (lines 65-92): replaces the whole record under
worksheetPdfUrl with a fresh one built only from the supplied arguments —
in particular assignmentId, courseId and courseName are not among the
fields written, so the stored record has them undefined. -/
def addWorksheet (st : StorageData) (worksheetPdfUrl answerKeyPdfUrl title : String)
    (metadata : Option WorksheetMetadata) (now : String) : StorageData :=
  { st with
    worksheets := setEntry st.worksheets worksheetPdfUrl
      { worksheetPdfUrl := worksheetPdfUrl
        answerKeyPdfUrl := answerKeyPdfUrl
        title := title
        subject := metadata.bind (fun m => m.subject)
        grade := metadata.bind (fun m => m.grade)
        summary := metadata.bind (fun m => m.summary)
        totalPoints := metadata.bind (fun m => m.totalPoints)
        gradingBreakdown := metadata.bind (fun m => m.gradingBreakdown)
        createdAt := now
        assignmentId := none
        courseId := none
        courseName := none } }

/-- linkWorksheetToAssignment (lines 94-117): false when the worksheet is
unknown; otherwise sets the assignment fields on the record and inserts the
reverse mapping. -/
def linkWorksheetToAssignment (st : StorageData) (worksheetPdfUrl assignmentId courseId : String)
    (courseName : Option String) : StorageData × Bool :=
  match getEntry st.worksheets worksheetPdfUrl with
  | none => (st, false)
  | some w =>
    ({ worksheets := setEntry st.worksheets worksheetPdfUrl
         { w with
           assignmentId := some assignmentId
           courseId := some courseId
           courseName := courseName }
       assignmentMapping := setEntry st.assignmentMapping assignmentId worksheetPdfUrl },
     true)

/-- deleteWorksheet (lines 167-181): removes the assignment mapping only
for the assignmentId recorded on the record (when present), then removes
the record. -/
def deleteWorksheet (st : StorageData) (worksheetPdfUrl : String) : StorageData × Bool :=
  match getEntry st.worksheets worksheetPdfUrl with
  | none => (st, false)
  | some w =>
    let mapping :=
      match w.assignmentId with
      | some aid => delEntry st.assignmentMapping aid
      | none => st.assignmentMapping
    ({ worksheets := delEntry st.worksheets worksheetPdfUrl
       assignmentMapping := mapping },
     true)

/-- One store mutation, for reasoning about operation sequences. -/
inductive StoreOp where
  | add (worksheetPdfUrl answerKeyPdfUrl title : String)
        (metadata : Option WorksheetMetadata) (now : String)
  | link (worksheetPdfUrl assignmentId courseId : String) (courseName : Option String)
  | del (worksheetPdfUrl : String)
  deriving Repr, DecidableEq

/-- Applying one mutation to the store (boolean results discarded). -/
def applyOp (st : StorageData) : StoreOp → StorageData
  | StoreOp.add u ak t md now => addWorksheet st u ak t md now
  | StoreOp.link u aid cid cname => (linkWorksheetToAssignment st u aid cid cname).1
  | StoreOp.del u => (deleteWorksheet st u).1

/-- Running a sequence of mutations from a starting state. -/
def runOps (st : StorageData) (ops : List StoreOp) : StorageData :=
  ops.foldl applyOp st

/-- The claimed consistency of the assignment index: no assignmentMapping
entry points at a worksheetPdfUrl whose record is absent. -/
def indexConsistent (st : StorageData) : Prop :=
  ∀ a w, getEntry st.assignmentMapping a = some w → (getEntry st.worksheets w).isSome

/-- The stronger inductive invariant: every mapping entry points at a
record that exists and whose assignmentId field points back. -/
def indexInv (st : StorageData) : Prop :=
  ∀ a w, getEntry st.assignmentMapping a = some w →
    ∃ r, getEntry st.worksheets w = some r ∧ r.assignmentId = some a

/-- The guard under which a mutation keeps the index consistent: neither
addWorksheet nor linkWorksheetToAssignment may overwrite a record that is
already linked to an assignment. -/
def opOk (st : StorageData) : StoreOp → Bool
  | StoreOp.add u _ _ _ _ =>
      match getEntry st.worksheets u with
      | some r => r.assignmentId.isNone
      | none => true
  | StoreOp.link u _ _ _ =>
      match getEntry st.worksheets u with
      | some r => r.assignmentId.isNone
      | none => true
  | StoreOp.del _ => true

/-- Every step of a sequence of mutations satisfies its guard in the state
it is applied to. -/
def opsOk : StorageData → List StoreOp → Prop
  | _, [] => True
  | st, op :: rest => opOk st op = true ∧ opsOk (applyOp st op) rest

/-! ### Map lemmas for the association-list embedding of JavaScript objects -/

theorem getEntry_filterOut_self (m : List (String × α)) (k : String) :
    getEntry (m.filter (fun p => !(p.1 == k))) k = none := by
  induction m with
  | nil => rfl
  | cons p rest ih =>
    by_cases h : p.1 = k
    · simp [List.filter_cons, h, ih]
    · simp [List.filter_cons, h, getEntry, ih]

theorem getEntry_filterOut_ne (m : List (String × α)) (k k' : String) (hne : ¬ k' = k) :
    getEntry (m.filter (fun p => !(p.1 == k))) k' = getEntry m k' := by
  induction m with
  | nil => rfl
  | cons p rest ih =>
    have hk : ¬ k = k' := fun hc => hne hc.symm
    by_cases h : p.1 = k
    · have hpk : ¬ p.1 = k' := by
        intro hc
        exact hne (by rw [← hc, h])
      simp [List.filter_cons, h, getEntry, hpk, hk, ih]
    · by_cases hpk : p.1 = k'
      · simp [List.filter_cons, h, getEntry, hpk, hne]
      · simp [List.filter_cons, h, getEntry, hpk, hne, ih]

theorem getEntry_append (m₁ m₂ : List (String × α)) (k : String) :
    getEntry (m₁ ++ m₂) k = ((getEntry m₁ k).or (getEntry m₂ k)) := by
  induction m₁ with
  | nil => simp [getEntry]
  | cons p rest ih =>
    by_cases hpk : p.1 = k
    · simp [getEntry, hpk]
    · simp [getEntry, hpk, ih]

theorem getEntry_singleton (k k' : String) (v : α) :
    getEntry [(k, v)] k' = if k = k' then some v else none := by
  by_cases h : k = k' <;> simp [getEntry, h]

/-- Lookup after a key assignment. -/
theorem getEntry_setEntry (m : List (String × α)) (k k' : String) (v : α) :
    getEntry (setEntry m k v) k' = if k = k' then some v else getEntry m k' := by
  by_cases h : k = k'
  · subst h
    simp [setEntry, getEntry_append, getEntry_filterOut_self, getEntry_singleton]
  · have h' : ¬ k' = k := fun hc => h hc.symm
    simp only [setEntry, getEntry_append, getEntry_filterOut_ne m k k' h', getEntry_singleton,
      if_neg h]
    cases getEntry m k' <;> rfl

/-- Lookup after a key deletion. -/
theorem getEntry_delEntry (m : List (String × α)) (k k' : String) :
    getEntry (delEntry m k) k' = if k = k' then none else getEntry m k' := by
  by_cases h : k = k'
  · subst h
    simp [delEntry, getEntry_filterOut_self]
  · have h' : ¬ k' = k := fun hc => h hc.symm
    simp [delEntry, getEntry_filterOut_ne m k k' h', h]

/-- Reducing the handler's percentage accumulator to a sum. -/
theorem foldl_add_percentage (l : List HandlerOutcome) (init : ℚ) :
    l.foldl (fun acc r => acc + r.result.percentageScore) init =
      init + (l.map (fun r => r.result.percentageScore)).sum := by
  induction l generalizing init with
  | nil => simp
  | cons x xs ih =>
    simp only [List.foldl_cons, List.map_cons, List.sum_cons, ih]
    ring

/-! ### Helper lemmas about the grading pipeline -/

/-- When the rubric resolves and the scorer succeeds on the grading prompt,
gradeStudentSubmission succeeds with the verbatim copy of the scorer
result. -/
theorem gradeStudentSubmission_ok_shape (env : Env) (sub : StudentSubmission)
    (akHtml : String) (info : GradingInfo) (tp : ℚ) (g : GradingLLMResult)
    (hak : env.getAnswerKeyHtml sub.assignmentId = some akHtml)
    (hgi : env.getGradingInfo sub.assignmentId = some info)
    (htp : info.totalPoints = some tp) (htp0 : ¬ tp = 0)
    (hsc : env.scorer (buildGradingPrompt env.extractAnswers
      (resolveStudentWork env sub.pdfUrl) akHtml info sub.userName) = Except.ok g) :
    gradeStudentSubmission env sub = Except.ok (mkSuccessResult sub env.now g) := by
  unfold gradeStudentSubmission
  simp only [hak, hgi, htp, if_neg htp0, hsc]

/-- The instrumented batch equals the plain batch and counts one rubric
resolution per submission. -/
theorem gradeMultipleSubmissionsCounting_spec (env : Env) (subs : List StudentSubmission) :
    gradeMultipleSubmissionsCounting env subs = (gradeMultipleSubmissions env subs, subs.length) := by
  have key : ∀ (l : List StudentSubmission) (acc : List GradingResult × Nat),
      l.foldl (fun acc sub => (acc.1 ++ [batchOutcome env sub], acc.2 + 1)) acc =
        (acc.1 ++ l.map (batchOutcome env), acc.2 + l.length) := by
    intro l
    induction l with
    | nil => intro acc; simp
    | cons x xs ih =>
      intro acc
      simp only [List.foldl_cons, ih, List.map_cons, List.length_cons, Prod.mk.injEq]
      exact ⟨by simp, by omega⟩
  simpa [gradeMultipleSubmissionsCounting, gradeMultipleSubmissions] using key subs ([], 0)

/-! ### Claims -/

/-- C1: for every batch of N submission tasks, the batch grading operation
(gradeMultipleSubmissions, and the grade-all-submissions handler) returns
exactly N outcomes, one per input task: the i-th outcome is exactly the
per-task outcome of the i-th task (the grading result on success, the
failure envelope when grading fails), so no task is dropped, and both
functions are total so no failure escapes the batch boundary. -/
theorem batch_returns_one_outcome_per_task :
    (∀ (env : Env) (subs : List StudentSubmission),
      (gradeMultipleSubmissions env subs).length = subs.length ∧
      ∀ i : Nat, (gradeMultipleSubmissions env subs)[i]? = (subs[i]?).map (batchOutcome env)) ∧
    (∀ (henv : HandlerEnv) (subs : List GradableSubmission),
      (gradeAllSubmissionsResults henv subs).length = subs.length ∧
      ∀ i : Nat, (gradeAllSubmissionsResults henv subs)[i]? = (subs[i]?).map (handlerOutcome henv)) := by
  constructor
  · intro env subs
    constructor
    · simp [gradeMultipleSubmissions]
    · intro i
      simp [gradeMultipleSubmissions, List.getElem?_map]
  · intro henv subs
    constructor
    · simp [gradeAllSubmissionsResults]
    · intro i
      simp [gradeAllSubmissionsResults, List.getElem?_map]

/-- C6: a submission whose grading fails produces an outcome with the same
envelope shape as a success: score 0, total 0, empty section scores, a
human-readable failure message in overallFeedback, and no-signal
recommendations — both in gradeMultipleSubmissions and in the
grade-all-submissions handler (where the thrown message is carried in the
feedback and the outcome is marked with error = true). -/
theorem failed_grading_outcome_envelope (env : Env) (sub : StudentSubmission) (e : String)
    (henv : HandlerEnv) (gsub : GradableSubmission) (msg : String)
    (hfail : gradeStudentSubmission env sub = Except.error e)
    (hhfail : handlerGradeOne henv gsub = Except.error msg) :
    ((batchOutcome env sub).overallScore = 0 ∧
     (batchOutcome env sub).totalPossiblePoints = 0 ∧
     (batchOutcome env sub).percentageScore = 0 ∧
     (batchOutcome env sub).sectionScores = [] ∧
     (batchOutcome env sub).overallFeedback =
       "Grading failed due to technical error. Please resubmit or contact your teacher." ∧
     (batchOutcome env sub).learningRecommendations.needsScaffolding = false ∧
     (batchOutcome env sub).learningRecommendations.scaffoldingAreas = [] ∧
     (batchOutcome env sub).learningRecommendations.readyForAcceleration = false ∧
     (batchOutcome env sub).learningRecommendations.accelerationAreas = []) ∧
    ((handlerOutcome henv gsub).result.overallScore = 0 ∧
     (handlerOutcome henv gsub).result.totalPossiblePoints = 0 ∧
     (handlerOutcome henv gsub).result.percentageScore = 0 ∧
     (handlerOutcome henv gsub).result.sectionScores = [] ∧
     (handlerOutcome henv gsub).result.overallFeedback = "Grading failed: " ++ msg ∧
     (handlerOutcome henv gsub).result.learningRecommendations.needsScaffolding = false ∧
     (handlerOutcome henv gsub).result.learningRecommendations.scaffoldingAreas = [] ∧
     (handlerOutcome henv gsub).result.learningRecommendations.readyForAcceleration = false ∧
     (handlerOutcome henv gsub).result.learningRecommendations.accelerationAreas = [] ∧
     (handlerOutcome henv gsub).error = true) := by
  constructor
  · simp [batchOutcome, hfail, failedGradingResult]
  · simp [handlerOutcome, hhfail, handlerFailedOutcome]

/-- A grading environment in which every rubric lookup fails: the answer
key is absent for every assignment. -/
def envNoRubric : Env :=
  { getAnswerKeyHtml := fun _ => none
    getGradingInfo := fun _ => none
    processOCRFromFile := fun _ => Except.error ("no ocr")
    processOCRFromBase64 := fun _ => Except.error ("no ocr")
    processOCR := fun _ => Except.error ("no ocr")
    scorer := fun _ => Except.error ("no scorer")
    extractAnswers := fun s => s
    now := "2025-01-01T00:00:00.000Z" }

/-- A handler environment in which the Drive download and its fallback both
fail. -/
def henvNoDownload : HandlerEnv :=
  { genv := envNoRubric
    download := fun _ => Except.error ("boom")
    altDownload := fun _ => Except.error ("alt failed") }

/-- A concrete submission used by the failure witnesses. -/
def subFail : StudentSubmission :=
  { assignmentId := "a1", userName := "Alice", userId := "u1"
    pdfUrl := "https://example.com/sub.pdf" }

/-- A concrete gradable submission used by the failure witnesses. -/
def gsubFail : GradableSubmission :=
  { assignmentId := "a1", userName := "Alice", userId := "u1"
    driveFileId := "d1", driveFileName := "submission.pdf", submissionId := "s1"
    state := "TURNED_IN" }

/-- Witness for C6 at a concrete failing environment. -/
theorem failed_grading_outcome_envelope_witness :
    ((batchOutcome envNoRubric subFail).overallScore = 0 ∧
     (batchOutcome envNoRubric subFail).totalPossiblePoints = 0 ∧
     (batchOutcome envNoRubric subFail).percentageScore = 0 ∧
     (batchOutcome envNoRubric subFail).sectionScores = [] ∧
     (batchOutcome envNoRubric subFail).overallFeedback =
       "Grading failed due to technical error. Please resubmit or contact your teacher." ∧
     (batchOutcome envNoRubric subFail).learningRecommendations.needsScaffolding = false ∧
     (batchOutcome envNoRubric subFail).learningRecommendations.scaffoldingAreas = [] ∧
     (batchOutcome envNoRubric subFail).learningRecommendations.readyForAcceleration = false ∧
     (batchOutcome envNoRubric subFail).learningRecommendations.accelerationAreas = []) ∧
    ((handlerOutcome henvNoDownload gsubFail).result.overallScore = 0 ∧
     (handlerOutcome henvNoDownload gsubFail).result.totalPossiblePoints = 0 ∧
     (handlerOutcome henvNoDownload gsubFail).result.percentageScore = 0 ∧
     (handlerOutcome henvNoDownload gsubFail).result.sectionScores = [] ∧
     (handlerOutcome henvNoDownload gsubFail).result.overallFeedback =
       "Grading failed: " ++ "Could not download PDF: boom" ∧
     (handlerOutcome henvNoDownload gsubFail).result.learningRecommendations.needsScaffolding = false ∧
     (handlerOutcome henvNoDownload gsubFail).result.learningRecommendations.scaffoldingAreas = [] ∧
     (handlerOutcome henvNoDownload gsubFail).result.learningRecommendations.readyForAcceleration = false ∧
     (handlerOutcome henvNoDownload gsubFail).result.learningRecommendations.accelerationAreas = [] ∧
     (handlerOutcome henvNoDownload gsubFail).error = true) :=
  failed_grading_outcome_envelope envNoRubric subFail
    ("No answer key found for assignment a1")
    henvNoDownload gsubFail ("Could not download PDF: boom")
    (by rfl) (by rfl)

/-- No-signal recommendations used by the concrete scorer results below. -/
def plainRecommendations : LearningRecommendations :=
  { needsScaffolding := false
    scaffoldingAreas := []
    readyForAcceleration := false
    accelerationAreas := []
    generalRecommendation := "Keep practicing." }

/-- A scorer result in which the model reports 130 points against a
100-point rubric (the provider-bug scenario of the spec). -/
def overScore130 : GradingLLMResult :=
  { overallScore := 130
    totalPossiblePoints := 100
    percentageScore := 130
    sectionScores := []
    overallFeedback := "Excellent work."
    learningRecommendations := plainRecommendations }

/-- An environment with a resolvable 100-point rubric whose scorer always
returns overScore130. -/
def envOver : Env :=
  { getAnswerKeyHtml := fun _ => some ("<p>2 + 2 = 4</p>")
    getGradingInfo := fun _ => some { totalPoints := some 100, gradingBreakdown := none }
    processOCRFromFile := fun _ => Except.ok { content := some ("work") }
    processOCRFromBase64 := fun _ => Except.ok { content := some ("work") }
    processOCR := fun _ => Except.ok { content := some ("work") }
    scorer := fun _ => Except.ok overScore130
    extractAnswers := fun s => s
    now := "2025-01-01T00:00:00.000Z" }

/-- Counterexample to C2: with a scorer returning 130/100, the produced
GradingOutcome carries overallScore 130, strictly above its
totalPossiblePoints of 100 — nothing clamps the score into
the range from 0 to totalPossible. -/
theorem score_not_clamped_counterexample :
    gradeStudentSubmission envOver subFail =
      Except.ok (mkSuccessResult subFail ("2025-01-01T00:00:00.000Z") overScore130) ∧
    (mkSuccessResult subFail ("2025-01-01T00:00:00.000Z") overScore130).overallScore = 130 ∧
    (mkSuccessResult subFail ("2025-01-01T00:00:00.000Z") overScore130).totalPossiblePoints = 100 ∧
    ¬ (mkSuccessResult subFail ("2025-01-01T00:00:00.000Z") overScore130).overallScore ≤
        (mkSuccessResult subFail ("2025-01-01T00:00:00.000Z") overScore130).totalPossiblePoints := by
  refine ⟨rfl, rfl, rfl, ?_⟩
  decide

/-- C2 as amended: when the rubric resolves and the scorer succeeds, the
orchestrator copies the scorer result's overallScore and
totalPossiblePoints into the GradingOutcome verbatim — no clamping of the
score into the range from 0 to totalPossible is performed, so whatever
numeric value the structured-generation call returns is propagated. -/
theorem score_passes_through_unclamped (env : Env) (sub : StudentSubmission)
    (akHtml : String) (info : GradingInfo) (tp : ℚ) (g : GradingLLMResult)
    (hak : env.getAnswerKeyHtml sub.assignmentId = some akHtml)
    (hgi : env.getGradingInfo sub.assignmentId = some info)
    (htp : info.totalPoints = some tp) (htp0 : ¬ tp = 0)
    (hsc : env.scorer (buildGradingPrompt env.extractAnswers
      (resolveStudentWork env sub.pdfUrl) akHtml info sub.userName) = Except.ok g) :
    gradeStudentSubmission env sub = Except.ok (mkSuccessResult sub env.now g) ∧
    (mkSuccessResult sub env.now g).overallScore = g.overallScore ∧
    (mkSuccessResult sub env.now g).totalPossiblePoints = g.totalPossiblePoints := by
  exact ⟨gradeStudentSubmission_ok_shape env sub akHtml info tp g hak hgi htp htp0 hsc, rfl, rfl⟩

/-- Witness for the amended C2 at the concrete 130/100 environment. -/
theorem score_passes_through_unclamped_witness :
    gradeStudentSubmission envOver subFail =
      Except.ok (mkSuccessResult subFail envOver.now overScore130) ∧
    (mkSuccessResult subFail envOver.now overScore130).overallScore = overScore130.overallScore ∧
    (mkSuccessResult subFail envOver.now overScore130).totalPossiblePoints =
      overScore130.totalPossiblePoints :=
  score_passes_through_unclamped envOver subFail ("<p>2 + 2 = 4</p>")
    { totalPoints := some 100, gradingBreakdown := none } 100 overScore130
    rfl rfl rfl (by norm_num) rfl

/-- A scorer result whose reported percentage (7) does not match
round(100 * 50 / 100) = 50. -/
def skewedPercentage : GradingLLMResult :=
  { overallScore := 50
    totalPossiblePoints := 100
    percentageScore := 7
    sectionScores := []
    overallFeedback := "Half right."
    learningRecommendations := plainRecommendations }

/-- An environment with a resolvable 100-point rubric whose scorer always
returns skewedPercentage. -/
def envSkewed : Env :=
  { getAnswerKeyHtml := fun _ => some ("<p>2 + 2 = 4</p>")
    getGradingInfo := fun _ => some { totalPoints := some 100, gradingBreakdown := none }
    processOCRFromFile := fun _ => Except.ok { content := some ("work") }
    processOCRFromBase64 := fun _ => Except.ok { content := some ("work") }
    processOCR := fun _ => Except.ok { content := some ("work") }
    scorer := fun _ => Except.ok skewedPercentage
    extractAnswers := fun s => s
    now := "2025-01-01T00:00:00.000Z" }

/-- Counterexample to C5: the scorer reports score 50 of 100 with
percentageScore 7; the produced outcome keeps percentageScore 7, which is
not round(100 * 50 / 100) = 50 — the percentage field is not derived from
the other two numeric fields. -/
theorem percentage_not_derived_counterexample :
    gradeStudentSubmission envSkewed subFail =
      Except.ok (mkSuccessResult subFail ("2025-01-01T00:00:00.000Z") skewedPercentage) ∧
    (mkSuccessResult subFail ("2025-01-01T00:00:00.000Z") skewedPercentage).percentageScore = 7 ∧
    round ((100 : ℚ) *
        (mkSuccessResult subFail ("2025-01-01T00:00:00.000Z") skewedPercentage).overallScore /
        (mkSuccessResult subFail ("2025-01-01T00:00:00.000Z") skewedPercentage).totalPossiblePoints)
      = (50 : ℤ) ∧
    ¬ (mkSuccessResult subFail ("2025-01-01T00:00:00.000Z") skewedPercentage).percentageScore =
        ((round ((100 : ℚ) *
          (mkSuccessResult subFail ("2025-01-01T00:00:00.000Z") skewedPercentage).overallScore /
          (mkSuccessResult subFail ("2025-01-01T00:00:00.000Z") skewedPercentage).totalPossiblePoints) : ℤ) : ℚ) := by
  refine ⟨rfl, rfl, ?_, ?_⟩
  · norm_num [mkSuccessResult, skewedPercentage]
  · norm_num [mkSuccessResult, skewedPercentage]

/-- C5 as amended: the percentageScore of a successful GradingOutcome is
the scorer result's percentageScore copied verbatim; the orchestrator does
not derive it from overallScore and totalPossiblePoints (and performs no
consistency check between the three numeric fields). -/
theorem percentage_passes_through (env : Env) (sub : StudentSubmission)
    (akHtml : String) (info : GradingInfo) (tp : ℚ) (g : GradingLLMResult)
    (hak : env.getAnswerKeyHtml sub.assignmentId = some akHtml)
    (hgi : env.getGradingInfo sub.assignmentId = some info)
    (htp : info.totalPoints = some tp) (htp0 : ¬ tp = 0)
    (hsc : env.scorer (buildGradingPrompt env.extractAnswers
      (resolveStudentWork env sub.pdfUrl) akHtml info sub.userName) = Except.ok g) :
    gradeStudentSubmission env sub = Except.ok (mkSuccessResult sub env.now g) ∧
    (mkSuccessResult sub env.now g).percentageScore = g.percentageScore := by
  exact ⟨gradeStudentSubmission_ok_shape env sub akHtml info tp g hak hgi htp htp0 hsc, rfl⟩

/-- Witness for the amended C5 at the concrete skewed-percentage
environment. -/
theorem percentage_passes_through_witness :
    gradeStudentSubmission envSkewed subFail =
      Except.ok (mkSuccessResult subFail envSkewed.now skewedPercentage) ∧
    (mkSuccessResult subFail envSkewed.now skewedPercentage).percentageScore =
      skewedPercentage.percentageScore :=
  percentage_passes_through envSkewed subFail ("<p>2 + 2 = 4</p>")
    { totalPoints := some 100, gradingBreakdown := none } 100 skewedPercentage
    rfl rfl rfl (by norm_num) rfl

/-- A second submission for the same assignment as subFail. -/
def subFail2 : StudentSubmission :=
  { assignmentId := "a1", userName := "Bob", userId := "u2"
    pdfUrl := "https://example.com/sub2.pdf" }

/-- Counterexample to C3: grading a two-task batch whose assignment has no
answer key performs one rubric resolution per task (two in total, as the
instrumented batch records), not a single resolution before dispatch — even
though, as claimed, both tasks do fail uniformly with the same envelope. -/
theorem rubric_lookup_per_task_counterexample :
    (gradeMultipleSubmissionsCounting envNoRubric [subFail, subFail2]).2 = 2 ∧
    ¬ (gradeMultipleSubmissionsCounting envNoRubric [subFail, subFail2]).2 ≤ 1 ∧
    (gradeMultipleSubmissionsCounting envNoRubric [subFail, subFail2]).1 =
      [failedGradingResult subFail envNoRubric.now,
       failedGradingResult subFail2 envNoRubric.now] := by
  refine ⟨rfl, ?_, rfl⟩
  decide

/-- C3 as amended: if the batch's assignment has no answer key, every task
yields the FAILURE envelope with the same reason string (each per-task
grading call fails with the identical no-answer-key error, and every
outcome carries the identical failure feedback); however the rubric is
looked up inside each per-task grading call — the batch performs one
resolution per task (subs.length resolutions), not a single resolution
before dispatch. -/
theorem no_rubric_uniform_failure_per_task_lookup (env : Env)
    (subs : List StudentSubmission) (aid : String)
    (hall : ∀ s ∈ subs, s.assignmentId = aid)
    (hnone : env.getAnswerKeyHtml aid = none) :
    (∀ s ∈ subs, gradeStudentSubmission env s =
      Except.error ("No answer key found for assignment " ++ aid)) ∧
    gradeMultipleSubmissions env subs = subs.map (fun s => failedGradingResult s env.now) ∧
    (∀ r ∈ gradeMultipleSubmissions env subs, r.overallFeedback =
      "Grading failed due to technical error. Please resubmit or contact your teacher.") ∧
    (gradeMultipleSubmissionsCounting env subs).2 = subs.length := by
  have herr : ∀ s ∈ subs, gradeStudentSubmission env s =
      Except.error ("No answer key found for assignment " ++ aid) := by
    intro s hs
    unfold gradeStudentSubmission
    rw [hall s hs, hnone]
  have hout : ∀ s ∈ subs, batchOutcome env s = failedGradingResult s env.now := by
    intro s hs
    unfold batchOutcome
    rw [herr s hs]
  refine ⟨herr, ?_, ?_, ?_⟩
  · exact List.map_congr_left hout
  · intro r hr
    rcases List.mem_map.mp hr with ⟨s, hs, hrs⟩
    rw [← hrs, hout s hs]
    rfl
  · rw [gradeMultipleSubmissionsCounting_spec]

/-- Witness for the amended C3 at the concrete no-rubric environment. -/
theorem no_rubric_uniform_failure_witness :
    (∀ s ∈ [subFail, subFail2], gradeStudentSubmission envNoRubric s =
      Except.error ("No answer key found for assignment " ++ "a1")) ∧
    gradeMultipleSubmissions envNoRubric [subFail, subFail2] =
      [subFail, subFail2].map (fun s => failedGradingResult s envNoRubric.now) ∧
    (∀ r ∈ gradeMultipleSubmissions envNoRubric [subFail, subFail2], r.overallFeedback =
      "Grading failed due to technical error. Please resubmit or contact your teacher.") ∧
    (gradeMultipleSubmissionsCounting envNoRubric [subFail, subFail2]).2 =
      [subFail, subFail2].length :=
  no_rubric_uniform_failure_per_task_lookup envNoRubric [subFail, subFail2] ("a1")
    (by intro s hs; fin_cases hs <;> rfl) rfl

/-- C4: a failed or empty content extraction does not abort grading.  When
the OCR call fails, the orchestrator substitutes the synthetic text
describing the failure; when OCR succeeds with no usable content, it
substitutes the empty-extraction text.  In both cases it still invokes the
scorer on a prompt built from the placeholder, and when the scorer succeeds
the task yields a normal successful outcome — it is not dropped and not
marked as a failure at the extraction stage. -/
theorem extraction_failure_degrades_to_scoring (env : Env) (sub : StudentSubmission)
    (akHtml : String) (info : GradingInfo) (tp : ℚ) (g : GradingLLMResult)
    (hak : env.getAnswerKeyHtml sub.assignmentId = some akHtml)
    (hgi : env.getGradingInfo sub.assignmentId = some info)
    (htp : info.totalPoints = some tp) (htp0 : ¬ tp = 0) :
    (∀ e : String, ocrDispatch env sub.pdfUrl = Except.error e →
      resolveStudentWork env sub.pdfUrl = ocrErrorFallback e ∧
      (env.scorer (buildGradingPrompt env.extractAnswers (ocrErrorFallback e) akHtml info
          sub.userName) = Except.ok g →
        gradeStudentSubmission env sub = Except.ok (mkSuccessResult sub env.now g))) ∧
    (∀ res : OcrResult, ocrDispatch env sub.pdfUrl = Except.ok res →
      (res.content.getD ("")).trim = "" →
      resolveStudentWork env sub.pdfUrl = emptyOcrFallback ∧
      (env.scorer (buildGradingPrompt env.extractAnswers emptyOcrFallback akHtml info
          sub.userName) = Except.ok g →
        gradeStudentSubmission env sub = Except.ok (mkSuccessResult sub env.now g))) := by
  constructor
  · intro e he
    have hres : resolveStudentWork env sub.pdfUrl = ocrErrorFallback e := by
      unfold resolveStudentWork
      rw [he]
    refine ⟨hres, fun hsc => ?_⟩
    exact gradeStudentSubmission_ok_shape env sub akHtml info tp g hak hgi htp htp0
      (by rw [hres]; exact hsc)
  · intro res hres hempty
    have hres2 : resolveStudentWork env sub.pdfUrl = emptyOcrFallback := by
      unfold resolveStudentWork
      rw [hres]
      simp [hempty]
    refine ⟨hres2, fun hsc => ?_⟩
    exact gradeStudentSubmission_ok_shape env sub akHtml info tp g hak hgi htp htp0
      (by rw [hres2]; exact hsc)

/-- A scorer result standing for a normal low-score grading of the
placeholder text. -/
def placeholderScore : GradingLLMResult :=
  { overallScore := 0
    totalPossiblePoints := 100
    percentageScore := 0
    sectionScores := []
    overallFeedback := "No readable work was extracted from the submission."
    learningRecommendations := plainRecommendations }

/-- An environment with a resolvable rubric whose OCR call always fails and
whose scorer still succeeds. -/
def envOcrFails : Env :=
  { getAnswerKeyHtml := fun _ => some ("<p>2 + 2 = 4</p>")
    getGradingInfo := fun _ => some { totalPoints := some 100, gradingBreakdown := none }
    processOCRFromFile := fun _ => Except.error ("network down")
    processOCRFromBase64 := fun _ => Except.error ("network down")
    processOCR := fun _ => Except.error ("network down")
    scorer := fun _ => Except.ok placeholderScore
    extractAnswers := fun s => s
    now := "2025-01-01T00:00:00.000Z" }

/-- Witness for C4 at a concrete environment whose OCR call fails: grading
still succeeds against the synthetic placeholder text. -/
theorem extraction_failure_degrades_to_scoring_witness :
    resolveStudentWork envOcrFails subFail.pdfUrl = ocrErrorFallback ("network down") ∧
    gradeStudentSubmission envOcrFails subFail =
      Except.ok (mkSuccessResult subFail envOcrFails.now placeholderScore) := by
  have h := (extraction_failure_degrades_to_scoring envOcrFails subFail ("<p>2 + 2 = 4</p>")
    { totalPoints := some 100, gradingBreakdown := none } 100 placeholderScore
    rfl rfl rfl (by norm_num)).1 ("network down") (by simp [ocrDispatch, envOcrFails])
  exact ⟨h.1, h.2 rfl⟩

/-- C8: the report statistics of the grade-all-submissions handler.  The
average is the arithmetic mean of percentageScore over the successful
outcomes only and is 0 when there are no successes; appending outcomes
marked as failures changes neither the average nor the scaffolding and
acceleration lists; and those lists contain exactly the successful
outcomes whose respective recommendation flag is set. -/
theorem batch_report_statistics (results extra : List HandlerOutcome)
    (hextra : ∀ r ∈ extra, r.error = true) :
    (avgScoreOf results =
      if successfulOf results = [] then 0
      else ((successfulOf results).map (fun r => r.result.percentageScore)).sum /
        ((successfulOf results).length : ℚ)) ∧
    successfulOf (results ++ extra) = successfulOf results ∧
    avgScoreOf (results ++ extra) = avgScoreOf results ∧
    needsSupportOf (results ++ extra) = needsSupportOf results ∧
    readyForMoreOf (results ++ extra) = readyForMoreOf results ∧
    (∀ r, r ∈ needsSupportOf results ↔
      r ∈ results ∧ r.error = false ∧ r.result.learningRecommendations.needsScaffolding = true) ∧
    (∀ r, r ∈ readyForMoreOf results ↔
      r ∈ results ∧ r.error = false ∧ r.result.learningRecommendations.readyForAcceleration = true) := by
  have hmean : ∀ rs : List HandlerOutcome, avgScoreOf rs =
      if successfulOf rs = [] then 0
      else ((successfulOf rs).map (fun r => r.result.percentageScore)).sum /
        ((successfulOf rs).length : ℚ) := by
    intro rs
    unfold avgScoreOf
    by_cases hnil : successfulOf rs = []
    · simp [hnil]
    · have hlen : 0 < (successfulOf rs).length := List.length_pos.mpr hnil
      rw [if_pos hlen, if_neg hnil, foldl_add_percentage, zero_add]
  have hsucc : successfulOf (results ++ extra) = successfulOf results := by
    unfold successfulOf
    rw [List.filter_append]
    have : extra.filter (fun r => !r.error) = [] := by
      rw [List.filter_eq_nil_iff]
      intro r hr
      simp [hextra r hr]
    rw [this, List.append_nil]
  refine ⟨hmean results, hsucc, ?_, ?_, ?_, ?_, ?_⟩
  · unfold avgScoreOf
    rw [hsucc]
  · unfold needsSupportOf
    rw [hsucc]
  · unfold readyForMoreOf
    rw [hsucc]
  · intro r
    unfold needsSupportOf successfulOf
    simp [List.mem_filter]
    tauto
  · intro r
    unfold readyForMoreOf successfulOf
    simp [List.mem_filter]
    tauto

/-- A successful handler outcome with percentage 80, flagged for
scaffolding. -/
def outcome80 : HandlerOutcome :=
  { result :=
      { userName := "Alice", userId := "u1", assignmentId := "a1"
        submittedPdfUrl := "https://example.com/sub.pdf"
        gradedAt := "2025-01-01T00:00:00.000Z"
        overallScore := 40, totalPossiblePoints := 50, percentageScore := 80
        sectionScores := []
        overallFeedback := "Good."
        learningRecommendations :=
          { needsScaffolding := true
            scaffoldingAreas := ["fractions"]
            readyForAcceleration := false
            accelerationAreas := []
            generalRecommendation := "Review fractions." } }
    error := false }

/-- A successful handler outcome with percentage 60, not flagged. -/
def outcome60 : HandlerOutcome :=
  { result :=
      { userName := "Bob", userId := "u2", assignmentId := "a1"
        submittedPdfUrl := "https://example.com/sub2.pdf"
        gradedAt := "2025-01-01T00:00:00.000Z"
        overallScore := 30, totalPossiblePoints := 50, percentageScore := 60
        sectionScores := []
        overallFeedback := "Fair."
        learningRecommendations := plainRecommendations }
    error := false }

/-- A failed handler outcome (error marker set). -/
def outcomeFailed : HandlerOutcome :=
  { result :=
      { userName := "Cara", userId := "u3", assignmentId := "a1"
        submittedPdfUrl := "Drive file: d3"
        gradedAt := "2025-01-01T00:00:00.000Z"
        overallScore := 0, totalPossiblePoints := 0, percentageScore := 0
        sectionScores := []
        overallFeedback := "Grading failed: boom"
        learningRecommendations := plainRecommendations }
    error := true }

/-- Witness for C8 at a concrete result collection: two successes (80 and
60 percent, one flagged for scaffolding) plus one appended failure. -/
theorem batch_report_statistics_witness :
    (avgScoreOf [outcome80, outcome60] =
      if successfulOf [outcome80, outcome60] = [] then 0
      else ((successfulOf [outcome80, outcome60]).map (fun r => r.result.percentageScore)).sum /
        ((successfulOf [outcome80, outcome60]).length : ℚ)) ∧
    successfulOf ([outcome80, outcome60] ++ [outcomeFailed]) = successfulOf [outcome80, outcome60] ∧
    avgScoreOf ([outcome80, outcome60] ++ [outcomeFailed]) = avgScoreOf [outcome80, outcome60] ∧
    needsSupportOf ([outcome80, outcome60] ++ [outcomeFailed]) = needsSupportOf [outcome80, outcome60] ∧
    readyForMoreOf ([outcome80, outcome60] ++ [outcomeFailed]) = readyForMoreOf [outcome80, outcome60] ∧
    (∀ r, r ∈ needsSupportOf [outcome80, outcome60] ↔
      r ∈ [outcome80, outcome60] ∧ r.error = false ∧
        r.result.learningRecommendations.needsScaffolding = true) ∧
    (∀ r, r ∈ readyForMoreOf [outcome80, outcome60] ↔
      r ∈ [outcome80, outcome60] ∧ r.error = false ∧
        r.result.learningRecommendations.readyForAcceleration = true) :=
  batch_report_statistics [outcome80, outcome60] [outcomeFailed]
    (by intro r hr; fin_cases hr; rfl)

/-- linkWorksheetToAssignment on an unknown worksheet leaves the store
unchanged. -/
theorem linkWorksheetToAssignment_unknown (st : StorageData) (u aid cid : String)
    (cname : Option String) (hu : getEntry st.worksheets u = none) :
    (linkWorksheetToAssignment st u aid cid cname).1 = st := by
  unfold linkWorksheetToAssignment
  rw [hu]

/-- linkWorksheetToAssignment on a known worksheet updates the record and
inserts the reverse mapping. -/
theorem linkWorksheetToAssignment_known (st : StorageData) (u aid cid : String)
    (cname : Option String) (w0 : WorksheetRecord) (hu : getEntry st.worksheets u = some w0) :
    (linkWorksheetToAssignment st u aid cid cname).1 =
      { worksheets := setEntry st.worksheets u
          { w0 with assignmentId := some aid, courseId := some cid, courseName := cname }
        assignmentMapping := setEntry st.assignmentMapping aid u } := by
  unfold linkWorksheetToAssignment
  rw [hu]

/-- deleteWorksheet on an unknown worksheet leaves the store unchanged. -/
theorem deleteWorksheet_unknown (st : StorageData) (u : String)
    (hu : getEntry st.worksheets u = none) :
    (deleteWorksheet st u).1 = st := by
  unfold deleteWorksheet
  rw [hu]

/-- deleteWorksheet on a record carrying an assignmentId removes both the
record and that mapping entry. -/
theorem deleteWorksheet_linked (st : StorageData) (u aid : String) (w0 : WorksheetRecord)
    (hu : getEntry st.worksheets u = some w0) (ha : w0.assignmentId = some aid) :
    (deleteWorksheet st u).1 =
      { worksheets := delEntry st.worksheets u
        assignmentMapping := delEntry st.assignmentMapping aid } := by
  unfold deleteWorksheet
  simp only [hu, ha]

/-- deleteWorksheet on a record without an assignmentId removes only the
record. -/
theorem deleteWorksheet_unlinked (st : StorageData) (u : String) (w0 : WorksheetRecord)
    (hu : getEntry st.worksheets u = some w0) (ha : w0.assignmentId = none) :
    (deleteWorksheet st u).1 =
      { worksheets := delEntry st.worksheets u
        assignmentMapping := st.assignmentMapping } := by
  unfold deleteWorksheet
  simp only [hu, ha]

/-- The strong invariant is preserved by every guarded mutation. -/
theorem indexInv_applyOp (st : StorageData) (op : StoreOp)
    (hinv : indexInv st) (hok : opOk st op = true) : indexInv (applyOp st op) := by
  cases op with
  | add u ak t md now =>
    intro a w hmap
    have hmap' : getEntry st.assignmentMapping a = some w := hmap
    obtain ⟨r, hr, hra⟩ := hinv a w hmap'
    by_cases huw : u = w
    · exfalso
      subst huw
      simp [opOk, hr, hra] at hok
    · refine ⟨r, ?_, hra⟩
      show getEntry (setEntry st.worksheets u _) w = some r
      rw [getEntry_setEntry, if_neg huw]
      exact hr
  | link u aid cid cname =>
    intro a w hmap
    cases hu : getEntry st.worksheets u with
    | none =>
      rw [show applyOp st (StoreOp.link u aid cid cname) = st from
        linkWorksheetToAssignment_unknown st u aid cid cname hu] at hmap ⊢
      exact hinv a w hmap
    | some w0 =>
      have hw0 : w0.assignmentId = none := by
        simp only [opOk] at hok
        rw [hu] at hok
        simpa [Option.isNone_iff_eq_none] using hok
      rw [show applyOp st (StoreOp.link u aid cid cname) =
          { worksheets := setEntry st.worksheets u
              { w0 with assignmentId := some aid, courseId := some cid, courseName := cname }
            assignmentMapping := setEntry st.assignmentMapping aid u } from
        linkWorksheetToAssignment_known st u aid cid cname w0 hu] at hmap ⊢
      simp only at hmap ⊢
      rw [getEntry_setEntry] at hmap
      by_cases haid : aid = a
      · subst haid
        rw [if_pos rfl] at hmap
        cases hmap
        refine ⟨{ w0 with assignmentId := some aid, courseId := some cid, courseName := cname },
          ?_, rfl⟩
        rw [getEntry_setEntry, if_pos rfl]
      · rw [if_neg haid] at hmap
        obtain ⟨r, hr, hra⟩ := hinv a w hmap
        by_cases huw : u = w
        · exfalso
          subst huw
          rw [hr] at hu
          cases hu
          rw [hw0] at hra
          exact Option.noConfusion hra
        · refine ⟨r, ?_, hra⟩
          rw [getEntry_setEntry, if_neg huw]
          exact hr
  | del u =>
    intro a w hmap
    cases hu : getEntry st.worksheets u with
    | none =>
      rw [show applyOp st (StoreOp.del u) = st from deleteWorksheet_unknown st u hu] at hmap ⊢
      exact hinv a w hmap
    | some w0 =>
      cases hw0 : w0.assignmentId with
      | some aid =>
        rw [show applyOp st (StoreOp.del u) =
            { worksheets := delEntry st.worksheets u
              assignmentMapping := delEntry st.assignmentMapping aid } from
          deleteWorksheet_linked st u aid w0 hu hw0] at hmap ⊢
        simp only at hmap ⊢
        rw [getEntry_delEntry] at hmap
        by_cases haid : aid = a
        · rw [if_pos haid] at hmap
          exact Option.noConfusion hmap
        · rw [if_neg haid] at hmap
          obtain ⟨r, hr, hra⟩ := hinv a w hmap
          by_cases huw : u = w
          · exfalso
            subst huw
            rw [hr] at hu
            cases hu
            rw [hw0] at hra
            cases hra
            exact haid rfl
          · refine ⟨r, ?_, hra⟩
            rw [getEntry_delEntry, if_neg huw]
            exact hr
      | none =>
        rw [show applyOp st (StoreOp.del u) =
            { worksheets := delEntry st.worksheets u
              assignmentMapping := st.assignmentMapping } from
          deleteWorksheet_unlinked st u w0 hu hw0] at hmap ⊢
        simp only at hmap ⊢
        obtain ⟨r, hr, hra⟩ := hinv a w hmap
        by_cases huw : u = w
        · exfalso
          subst huw
          rw [hr] at hu
          cases hu
          rw [hw0] at hra
          exact Option.noConfusion hra
        · refine ⟨r, ?_, hra⟩
          rw [getEntry_delEntry, if_neg huw]
          exact hr

/-- The strong invariant holds along every guarded run. -/
theorem indexInv_runOps (ops : List StoreOp) (st : StorageData)
    (hinv : indexInv st) (hok : opsOk st ops) : indexInv (runOps st ops) := by
  induction ops generalizing st with
  | nil => exact hinv
  | cons op rest ih =>
    obtain ⟨h1, h2⟩ := hok
    exact ih (applyOp st op) (indexInv_applyOp st op hinv h1) h2

/-- The operation sequence that breaks the index: add a worksheet, link it
to an assignment, add it again (which clears the record's assignmentId but
leaves the mapping), then delete it (which, finding no assignmentId on the
record, removes only the record). -/
def opsDangling : List StoreOp :=
  [StoreOp.add ("w") ("ak") ("Fractions") none ("t0"),
   StoreOp.link ("w") ("a") ("c") none,
   StoreOp.add ("w") ("ak") ("Fractions") none ("t1"),
   StoreOp.del ("w")]

/-- Counterexample to C7: after add, link, re-add, delete on the same
worksheet, the assignmentMapping still maps the assignment to the deleted
worksheet while the record is gone — the consistency invariant does not
hold in every reachable store state. -/
theorem index_dangling_counterexample :
    getEntry (runOps emptyStorage opsDangling).assignmentMapping ("a") = some ("w") ∧
    getEntry (runOps emptyStorage opsDangling).worksheets ("w") = none ∧
    ¬ indexConsistent (runOps emptyStorage opsDangling) := by
  have h1 : getEntry (runOps emptyStorage opsDangling).assignmentMapping ("a") = some ("w") := by
    decide
  have h2 : getEntry (runOps emptyStorage opsDangling).worksheets ("w") = none := by
    decide
  refine ⟨h1, h2, fun h => ?_⟩
  have h3 := h ("a") ("w") h1
  rw [h2] at h3
  simp at h3

/-- C7 as amended: the consistency of the AssignmentIndex with the
worksheet records (no mapping entry points at an absent record) is an
invariant of every sequence of store operations from the empty store in
which addWorksheet and linkWorksheetToAssignment are never applied to a
worksheetPdfUrl whose current record already carries an assignmentId;
deleteWorksheet itself always removes the mapping entry recorded on the
record it deletes.  Without that restriction the invariant fails:
re-adding a linked worksheet clears its assignmentId while leaving the
index entry, so a later delete leaves a dangling mapping. -/
theorem index_consistent_of_guarded_ops (ops : List StoreOp)
    (hok : opsOk emptyStorage ops) :
    indexInv (runOps emptyStorage ops) ∧ indexConsistent (runOps emptyStorage ops) := by
  have hinv0 : indexInv emptyStorage := by
    intro a w h
    simp [emptyStorage, getEntry] at h
  have hinv := indexInv_runOps ops emptyStorage hinv0 hok
  refine ⟨hinv, ?_⟩
  intro a w hmap
  obtain ⟨r, hr, _⟩ := hinv a w hmap
  rw [hr]
  rfl

/-- A guarded operation sequence: add, link, delete — no re-add of a linked
worksheet. -/
def opsGuarded : List StoreOp :=
  [StoreOp.add ("w") ("ak") ("Fractions") none ("t0"),
   StoreOp.link ("w") ("a") ("c") none,
   StoreOp.del ("w")]

/-- Witness for the amended C7 at a concrete guarded sequence. -/
theorem index_consistent_of_guarded_ops_witness :
    indexInv (runOps emptyStorage opsGuarded) ∧
    indexConsistent (runOps emptyStorage opsGuarded) :=
  index_consistent_of_guarded_ops opsGuarded
    (by simp only [opsOk]; refine ⟨?_, ?_, ?_, trivial⟩ <;> decide)

/-- C10: re-adding a worksheet that was previously linked to an assignment
replaces the whole record with one built only from the newly supplied
fields — the previously set assignmentId, courseId and courseName are
cleared (the fresh record has them absent) — while the assignmentMapping is
untouched, so the index entry created by the earlier link still maps the
assignmentId to this worksheet. -/
theorem readd_clears_link_fields_keeps_index (st : StorageData)
    (url akUrl title : String) (md : Option WorksheetMetadata) (now aid : String)
    (hlink : getEntry st.assignmentMapping aid = some url) :
    ∃ r, getEntry (addWorksheet st url akUrl title md now).worksheets url = some r ∧
      r.assignmentId = none ∧ r.courseId = none ∧ r.courseName = none ∧
      r.answerKeyPdfUrl = akUrl ∧ r.title = title ∧ r.createdAt = now ∧
      (addWorksheet st url akUrl title md now).assignmentMapping = st.assignmentMapping ∧
      getEntry (addWorksheet st url akUrl title md now).assignmentMapping aid = some url := by
  refine ⟨{ worksheetPdfUrl := url
            answerKeyPdfUrl := akUrl
            title := title
            subject := md.bind (fun m => m.subject)
            grade := md.bind (fun m => m.grade)
            summary := md.bind (fun m => m.summary)
            totalPoints := md.bind (fun m => m.totalPoints)
            gradingBreakdown := md.bind (fun m => m.gradingBreakdown)
            createdAt := now
            assignmentId := none
            courseId := none
            courseName := none }, ?_, rfl, rfl, rfl, rfl, rfl, rfl, rfl, hlink⟩
  show getEntry (setEntry st.worksheets url _) url = some _
  rw [getEntry_setEntry, if_pos rfl]

/-- The store obtained by adding one worksheet and linking it. -/
def storeLinked : StorageData :=
  runOps emptyStorage
    [StoreOp.add ("w") ("ak") ("Fractions") none ("t0"),
     StoreOp.link ("w") ("a") ("c") none]

/-- Witness for C10 at a concrete linked store. -/
theorem readd_clears_link_fields_keeps_index_witness :
    ∃ r, getEntry (addWorksheet storeLinked ("w") ("ak2") ("Fractions v2") none ("t1")).worksheets
        ("w") = some r ∧
      r.assignmentId = none ∧ r.courseId = none ∧ r.courseName = none ∧
      r.answerKeyPdfUrl = "ak2" ∧ r.title = "Fractions v2" ∧ r.createdAt = "t1" ∧
      (addWorksheet storeLinked ("w") ("ak2") ("Fractions v2") none ("t1")).assignmentMapping =
        storeLinked.assignmentMapping ∧
      getEntry (addWorksheet storeLinked ("w") ("ak2") ("Fractions v2") none ("t1")).assignmentMapping
        ("a") = some ("w") :=
  readd_clears_link_fields_keeps_index storeLinked ("w") ("ak2") ("Fractions v2") none ("t1") ("a")
    (by decide)

end EduAdapt
